import Mathlib

/-!
Verification of the usage-quota / monthly-reset accounting rule and the
prompt-personalization policy of the autopilotai backend.

The embedding translates the Python source shallowly:
- `app/utils/usage.py` (plan limits, monthly reset),
- the three generation route handlers
  (`app/ai/ads_routes.py`, `app/ai/content_routes.py`, `app/ai/email_routes.py`),
- the Stripe checkout-completed webhook effect on the account
  (`app/routes/stripe_routes.py`),
- the declared columns of the `Profile` ORM model (`app/database/models.py`).

Database mutations are modelled by explicit state passing: a handler returns
the stored account state after the request (only a successful request commits),
the list of `SavedContent` rows it persisted, and its response or error.
The external model API is a function parameter returning the message content
(`Option String`: `none` models a null content field).
-/

/-- Timestamp as the reset logic observes it: `datetime.utcnow()` projected to
calendar year and month, plus an opaque sub-month component (day and time),
which the code stores but never compares. -/
structure PyDateTime where
  year : Nat
  month : Nat
  sub : Nat
deriving DecidableEq, Repr

/-- Python `a or b` for an optional string `a`: `None` and the empty string
are falsy, so the result is `b` exactly in those cases. -/
def pyOrS : Option String → String → String
  | some s, b => if s = "" then b else s
  | none, b => b

/-- Python `a or b` for an optional int `a`: `None` and `0` are falsy. -/
def pyOrI : Option Int → Int → Int
  | some n, b => if n = 0 then b else n
  | none, b => b

/-- Whitespace characters removed by Python `str.strip()` (the ASCII ones the
repository can produce: space, tab, newline, carriage return, vertical tab,
form feed). -/
def pyIsSpace (c : Char) : Bool :=
  c = ' ' || c = '\t' || c = '\n' || c = '\x0d' || c = Char.ofNat 11 || c = Char.ofNat 12

/-- Python `str.strip()`: drop leading and trailing whitespace. -/
def pystrip (s : String) : String :=
  String.mk (((s.data.dropWhile pyIsSpace).reverse.dropWhile pyIsSpace).reverse)

/-- Python `str.lower()` on the ASCII plan and platform names the code uses. -/
def pyLower (s : String) : String :=
  String.mk (s.data.map Char.toLower)

/-- The stored account state the quota logic reads and writes
(`User` model fields `subscription_plan`, `monthly_limit`, `used_generations`,
`last_reset`; identity and credential columns are not consulted by any claim). -/
structure UserState where
  subscription_plan : String
  monthly_limit : Option Int
  used_generations : Option Int
  last_reset : Option PyDateTime
deriving DecidableEq, Repr

/-- `app/utils/usage.py` lines 10-23: `PLAN_LIMITS` lookup with fallback 10.
`dict.get` is an exact (case-sensitive) key match; `none` means unlimited. -/
def get_user_limit (subscription_plan : String) : Option Int :=
  if subscription_plan = "free" then some 10
  else if subscription_plan = "basic" then some 100
  else if subscription_plan = "growth" then none
  else if subscription_plan = "pro" then none
  else some 10

/-- `app/utils/usage.py` lines 26-41: `reset_if_new_month`. A missing
`last_reset` (Python falsy `None`; a datetime value is always truthy) is
initialized to now with count 0; a stored month or year differing from the
current one resets the count to 0 and advances the timestamp. -/
def reset_if_new_month (now : PyDateTime) (user : UserState) : UserState :=
  match user.last_reset with
  | none => { user with last_reset := some now, used_generations := some 0 }
  | some last =>
    if last.month ≠ now.month ∨ last.year ≠ now.year then
      { user with used_generations := some 0, last_reset := some now }
    else user

/-- Caller-visible failure conditions of a generation request.
`quotaExceeded` is the HTTP 403 raise, `validationFailed` the HTTP 422 raise,
`generationFailed` the HTTP 500 raise on empty model output, `typeError` the
Python `TypeError` from comparing `None >= int` (surfaced as a server error),
`apiError` the generic exception branch (HTTP 500 OpenAI error). -/
inductive Err where
  | quotaExceeded
  | validationFailed
  | generationFailed
  | typeError
  | apiError
deriving DecidableEq, Repr

/-- The limit comparison shared verbatim by the three handlers:
`if limit is not None and user.used_generations >= limit: raise 403`.
In Python 3, `None >= limit` with an int limit raises `TypeError`. -/
def quota_check (limit : Option Int) (used : Option Int) : Except Err Unit :=
  match limit with
  | none => Except.ok ()
  | some n =>
    match used with
    | none => Except.error Err.typeError
    | some c => if c ≥ n then Except.error Err.quotaExceeded else Except.ok ()

/-- A profile record as the generation routes consume it. Given the declared
`Profile` columns in `app/database/models.py`, the five personality attributes
exist only when assigned in-session; the routes read them as plain attributes,
modelled here as present fields. The ads `Dummy` fallback defines no
`signature` and the ads route never reads one; the field is `""` there. -/
structure ProfileRec where
  use_emojis : Bool
  use_hashtags : Bool
  length_pref : String
  creativity_level : Int
  cta_style : String
  brand_tone : String
  writing_style : String
  signature : String
deriving DecidableEq, Repr

/-- `app/ai/ads_routes.py` lines 50-59: the inline `Dummy` fallback profile
used when no profile row exists. -/
def adsDummyProfile : ProfileRec :=
  { use_emojis := true
    use_hashtags := true
    length_pref := "medium"
    creativity_level := 5
    cta_style := "balanced"
    brand_tone := ""
    writing_style := ""
    signature := "" }

/-- `ads_routes.py` line 74. -/
def ads_emoji_rule (p : ProfileRec) : String :=
  if p.use_emojis then "Emojis allowed when natural." else "Do NOT use emojis."

/-- `ads_routes.py` line 75. -/
def ads_hashtag_rule (p : ProfileRec) : String :=
  if p.use_hashtags then "Use relevant hashtags when logical." else "Do NOT use hashtags."

/-- `ads_routes.py` lines 76-82. -/
def ads_length_rule (p : ProfileRec) : String :=
  if p.length_pref = "short" then "Very short punchy ad copy."
  else if p.length_pref = "medium" then "Balanced ad length."
  else "More detailed, persuasive ad copy."

/-- `ads_routes.py` lines 84-88: dict lookup with default. -/
def ads_cta_rule (p : ProfileRec) : String :=
  if p.cta_style = "soft" then "Use gentle CTA wording."
  else if p.cta_style = "balanced" then "Use confident but friendly CTA."
  else if p.cta_style = "aggressive" then "Use strong, decisive CTA."
  else "Balanced CTA."

/-- `ads_routes.py` line 90. -/
def ads_creativity_rule (p : ProfileRec) : String :=
  "Creativity level: " ++ toString p.creativity_level ++ "/10"

/-- `ads_routes.py` lines 92-96. -/
def ads_tone_rule (p : ProfileRec) : String :=
  if p.brand_tone = "" then "Confident, modern marketing tone." else p.brand_tone

/-- `ads_routes.py` lines 98-102. -/
def ads_writing_style_rule (p : ProfileRec) : String :=
  if p.writing_style = "" then "Clear, persuasive writing style." else p.writing_style

/-- `ads_routes.py` lines 104-131. -/
def ads_platform_format (platform : String) : String :=
  if platform = "meta" then
    "Write Facebook + Instagram style ads.\n- Strong hook first line\n- Skimmable short sentences\n- Optional emojis if allowed\n- 1 CTA\n"
  else if platform = "google" then
    "Write Google Search Ads.\n- Short headlines\n- Compelling descriptions\n- Clear value clarity\n- 1 CTA phrase\n"
  else if platform = "tiktok" then
    "Write TikTok Ad captions.\n- Fast hook\n- Energetic language\n- Relatable tone\n"
  else ""

/-- `ads_routes.py` lines 134-150: the system prompt. -/
def ads_system_prompt (p : ProfileRec) (platform : String) : String :=
  "You generate HIGH-CONVERTING ads.\n" ++
  "Return ONLY ad content—no explanation.\n\n" ++
  "FORMAT STRICTLY:\n\n" ++
  "AD 1:\nHeadline:\nPrimary text:\nCTA:\n\n" ++
  "AD 2:\nHeadline:\nPrimary text:\nCTA:\n\n" ++
  "AD 3:\nHeadline:\nPrimary text:\nCTA:\n\n" ++
  "RULES:\n" ++
  "- " ++ ads_emoji_rule p ++ "\n" ++
  "- " ++ ads_hashtag_rule p ++ "\n" ++
  "- " ++ ads_length_rule p ++ "\n" ++
  "- " ++ ads_cta_rule p ++ "\n" ++
  "- " ++ ads_tone_rule p ++ "\n" ++
  "- " ++ ads_writing_style_rule p ++ "\n" ++
  "- " ++ ads_creativity_rule p ++ "\n\n" ++
  ads_platform_format platform

/-- `app/ai/content_routes.py` lines 31-64. -/
def platform_instructions (platform : String) : String :=
  let platform := pyLower platform
  if platform = "tiktok" then
    "Format for TikTok captions:\n- Short punchy hooks\n- Casual bold tone\n- Emojis allowed\n- 2–4 short lines only\n"
  else if platform = "twitter" then
    "Format for X (Twitter):\n- Max 280 characters per post\n- Strong hooks\n- No unnecessary hashtags\n"
  else if platform = "linkedin" then
    "Format for LinkedIn:\n- Professional tone\n- Value-driven\n- Line breaks\n- No emojis\n"
  else
    "Format for Instagram:\n- Hook first line\n- 2–4 lines max\n- Emojis allowed\n- 6–12 relevant hashtags\n"

/-- `app/ai/content_routes.py` lines 67-125: `build_behavior_rules`.
The stored fields can be Python-falsy; the `or` defaults are modelled with the
falsy values of the field types (0 for the int, `""` for the strings). -/
def build_behavior_rules (profile : Option ProfileRec) : String :=
  match profile with
  | none =>
    "AI Behavior Rules:\n- Use a balanced tone\n- Normal creativity\n- Emojis allowed\n- Hashtags allowed\n- Medium length content\n- Soft marketing CTA\n"
  | some p =>
    let rules := "AI Behavior Rules:\n"
    let creativity := pyOrI (some p.creativity_level) 5
    let rules := rules ++
      (if creativity ≤ 3 then "- Keep creativity low. Be factual and direct.\n"
       else if creativity ≤ 7 then "- Medium creativity. Natural but not crazy.\n"
       else "- Very creative, engaging and bold.\n")
    let rules := rules ++
      (if p.use_emojis = false then "- DO NOT use emojis.\n" else "- Emojis allowed.\n")
    let rules := rules ++
      (if p.use_hashtags = false then "- DO NOT include hashtags.\n"
       else "- Hashtags allowed where appropriate.\n")
    let length := pyLower (pyOrS (some p.length_pref) "medium")
    let rules := rules ++
      (if length = "short" then "- Keep responses short and punchy.\n"
       else if length = "long" then "- Provide longer, more detailed content.\n"
       else "- Medium length responses.\n")
    let cta := pyLower (pyOrS (some p.cta_style) "soft")
    rules ++
      (if cta = "strong" then "- Use strong persuasive CTA.\n"
       else if cta = "none" then "- No marketing CTA.\n"
       else "- Use soft CTA tone.\n")

/-- `app/ai/email_routes.py` lines 30-89: `build_email_personality`.
With no profile the function returns the empty string. On a present record the
five `hasattr` guards are modelled as true, since the record type declares the
attributes; the three free-text rules are appended only when truthy. -/
def build_email_personality (profile : Option ProfileRec) : String :=
  match profile with
  | none => ""
  | some p =>
    let rules : List String := []
    let rules := rules ++
      [if p.use_emojis then "You MAY use emojis when helpful but not childish."
       else "DO NOT use emojis anywhere."]
    let rules := rules ++
      [if p.use_hashtags then "Hashtags allowed only when appropriate."
       else "DO NOT use hashtags anywhere."]
    let rules := rules ++
      [if p.length_pref = "short" then "Keep the email concise and short."
       else if p.length_pref = "long" then "Provide detailed, structured email content."
       else "Use a balanced medium length."]
    let rules := rules ++
      [if p.creativity_level ≤ 3 then "Very professional, logical, minimal flair."
       else if p.creativity_level ≤ 7 then "Balanced professionalism and personality."
       else "Creative, engaging, persuasive voice."]
    let rules := rules ++
      [if p.cta_style = "soft" then "Use a soft and friendly call-to-action."
       else if p.cta_style = "aggressive" then "Use a strong and direct call-to-action."
       else "Use a balanced professional CTA."]
    let rules := rules ++ (if p.brand_tone ≠ "" then ["Brand tone: " ++ p.brand_tone ++ "."] else [])
    let rules := rules ++
      (if p.writing_style ≠ "" then ["Preferred writing style: " ++ p.writing_style ++ "."] else [])
    let rules := rules ++
      (if p.signature ≠ "" then ["Always end the email with this signature:\n" ++ p.signature] else [])
    String.intercalate "\n" rules

/-- A persisted `SavedContent` row (`app/database/models.py` lines 60-69);
`user_id` is the single authenticated account of the request and is implicit. -/
structure SavedContentRec where
  content_type : String
  prompt : String
  result : String
deriving DecidableEq, Repr

/-- Decidable equality for `Except`, needed to evaluate handler outcomes. -/
instance exceptDecEq {ε α : Type} [DecidableEq ε] [DecidableEq α] :
    DecidableEq (Except ε α) := fun a b =>
  match a, b with
  | Except.ok x, Except.ok y =>
    if h : x = y then isTrue (by rw [h]) else isFalse (by simp [h])
  | Except.error x, Except.error y =>
    if h : x = y then isTrue (by rw [h]) else isFalse (by simp [h])
  | Except.ok _, Except.error _ => isFalse (by simp)
  | Except.error _, Except.ok _ => isFalse (by simp)

/-- Outcome of one generation request: the stored account state afterwards
(unchanged unless the handler reached `db.commit()`), the `SavedContent` rows
persisted, and the response or the raised error. -/
structure HandlerResult where
  user : UserState
  saved : List SavedContentRec
  response : Except Err String
deriving DecidableEq, Repr

/-- Request body of the ads route (`ads_routes.py` lines 15-21). -/
structure AdRequest where
  platform : Option String
  objective : Option String
  product : Option String
  audience : Option String
  prompt : Option String
  text : Option String
deriving DecidableEq, Repr

/-- Request body of the content route (`content_routes.py` lines 15-20). -/
structure ContentRequest where
  topic : Option String
  prompt : Option String
  text : Option String
  platform : Option String
  generate_image : Bool
deriving DecidableEq, Repr

/-- Request body of the email route (`email_routes.py` lines 15-19). -/
structure EmailRequest where
  subject : Option String
  details : Option String
  prompt : Option String
  text : Option String
deriving DecidableEq, Repr

/-- `ads_routes.py` line 65: `(data.prompt or data.text or "").strip()`. -/
def adsPromptOf (data : AdRequest) : String :=
  pystrip (pyOrS data.prompt (pyOrS data.text ""))

/-- `content_routes.py` line 143: `(data.topic or data.prompt or data.text or "").strip()`. -/
def contentPromptOf (data : ContentRequest) : String :=
  pystrip (pyOrS data.topic (pyOrS data.prompt (pyOrS data.text "")))

/-- `email_routes.py` line 108: `(data.details or data.prompt or data.text or "").strip()`. -/
def emailDetailsOf (data : EmailRequest) : String :=
  pystrip (pyOrS data.details (pyOrS data.prompt (pyOrS data.text "")))

/-- `app/ai/ads_routes.py` lines 32-198: the `/generate` ads handler.
`ai` is the model API: system prompt and user message to the returned message
content (`none` models a null content field, which line 176 folds to `""`).
An error raised before `db.commit()` leaves the stored account unchanged. -/
def generate_ads (now : PyDateTime) (profileRow : Option ProfileRec)
    (ai : String → String → Option String) (user : UserState) (data : AdRequest) :
    HandlerResult :=
  let user1 := reset_if_new_month now user
  match quota_check (get_user_limit user1.subscription_plan) user1.used_generations with
  | Except.error e => ⟨user, [], Except.error e⟩
  | Except.ok _ =>
    let profile := match profileRow with
      | some p => p
      | none => adsDummyProfile
    let platform := pyLower (pyOrS data.platform "meta")
    let objective := pystrip (pyOrS data.objective "Sales")
    let product := pystrip (pyOrS data.product "")
    let audience := pystrip (pyOrS data.audience "")
    let prompt0 := adsPromptOf data
    if prompt0 = "" ∧ (product = "" ∨ audience = "") then
      ⟨user, [], Except.error Err.validationFailed⟩
    else
      let prompt :=
        if prompt0 = "" then
          "Create ads for " ++ product ++ " targeting " ++ audience ++
            " with objective " ++ objective ++ "."
        else prompt0
      let system := ads_system_prompt profile platform
      let userMsg :=
        "\nCreate 3 ads.\n\nOBJECTIVE:\n" ++ objective ++ "\n\nPRODUCT:\n" ++ product ++
          "\n\nAUDIENCE:\n" ++ audience ++ "\n\nPROMPT:\n" ++ prompt ++ "\n"
      let output := pystrip (pyOrS (ai system userMsg) "")
      if output = "" then ⟨user, [], Except.error Err.generationFailed⟩
      else
        ⟨{ user1 with used_generations := some (pyOrI user1.used_generations 0 + 1) },
         [⟨"ad", product ++ " → " ++ audience, output⟩],
         Except.ok output⟩

/-- `app/ai/content_routes.py` lines 128-246: the `/generate` content handler,
up to its commit and text response. A null message content hits `.strip()` on
`None` (line 174), an `AttributeError` caught by the generic handler (500).
The post-commit image branch (lines 191-241) touches neither the account state
nor the saved text row and is not modelled. -/
def generate_content (now : PyDateTime) (profileRow : Option ProfileRec)
    (ai : String → String → Option String) (user : UserState) (data : ContentRequest) :
    HandlerResult :=
  let user1 := reset_if_new_month now user
  match quota_check (get_user_limit user1.subscription_plan) user1.used_generations with
  | Except.error e => ⟨user, [], Except.error e⟩
  | Except.ok _ =>
    let prompt := contentPromptOf data
    if prompt = "" then ⟨user, [], Except.error Err.validationFailed⟩
    else
      let platform := pyLower (pyOrS data.platform "instagram")
      let behaviorRules := build_behavior_rules profileRow
      let systemPrompt :=
        "You generate READY-TO-POST social media content.\n" ++
        "Do NOT give explanations.\n" ++
        "Do NOT talk about strategy.\n" ++
        "Only output final posts.\n\n" ++
        behaviorRules ++ "\n" ++
        "Output EXACTLY 5 posts.\n" ++
        "Separate each clearly.\n\n" ++
        platform_instructions platform
      match ai systemPrompt ("Create 5 posts to showcase: " ++ prompt) with
      | none => ⟨user, [], Except.error Err.apiError⟩
      | some content =>
        let output := pystrip content
        if output = "" then ⟨user, [], Except.error Err.generationFailed⟩
        else
          ⟨{ user1 with used_generations := some (pyOrI user1.used_generations 0 + 1) },
           [⟨"content", prompt ++ " (" ++ platform ++ ")", output⟩],
           Except.ok output⟩

/-- `app/ai/email_routes.py` lines 92-166: the `/generate` email handler. -/
def generate_email (now : PyDateTime) (profileRow : Option ProfileRec)
    (ai : String → String → Option String) (user : UserState) (data : EmailRequest) :
    HandlerResult :=
  let user1 := reset_if_new_month now user
  match quota_check (get_user_limit user1.subscription_plan) user1.used_generations with
  | Except.error e => ⟨user, [], Except.error e⟩
  | Except.ok _ =>
    let subject0 := pystrip (pyOrS data.subject "")
    let details := emailDetailsOf data
    if details = "" then ⟨user, [], Except.error Err.validationFailed⟩
    else
      let subject := if subject0 = "" then "Quick question" else subject0
      let personalization := build_email_personality profileRow
      let system :=
        "You write FINAL, SEND-READY business emails.\n" ++
        "You NEVER explain your writing.\n" ++
        "You ONLY output the email itself.\n\n" ++
        "Rules:\n" ++
        "- ALWAYS start with: Subject: ...\n" ++
        "- Then new line then full email body\n" ++
        "- Professional and persuasive\n" ++
        "- Clear structure\n" ++
        "- One clear CTA\n\n" ++
        personalization
      let userMsg := "Write this email:\n\nSubject idea: " ++ subject ++ "\n\nContext:\n" ++ details
      let output := pystrip (pyOrS (ai system userMsg) "")
      if output = "" then ⟨user, [], Except.error Err.generationFailed⟩
      else
        ⟨{ user1 with used_generations := some (pyOrI user1.used_generations 0 + 1) },
         [⟨"email", subject, output⟩],
         Except.ok output⟩

/-- `app/routes/stripe_routes.py` lines 111-135: effect of a
`checkout.session.completed` webhook event on the stored account. The plan and
`monthly_limit` are set, the count is reset to 0, and `last_reset` is not
touched. The Stripe customer and subscription id assignments do not touch the
fields the quota logic reads and are outside this state. -/
def stripe_checkout_completed (plan : String) (user : UserState) : UserState :=
  let user := { user with subscription_plan := plan }
  let user :=
    if plan = "basic" then { user with monthly_limit := some 100 }
    else if plan = "growth" then { user with monthly_limit := some 500 }
    else if plan = "pro" then { user with monthly_limit := some 1500 }
    else user
  { user with used_generations := some 0 }

/-- The column names declared on the `Profile` ORM model
(`app/database/models.py` lines 37-54). -/
def profileColumns : List String :=
  ["id", "user_id", "full_name", "company_name", "company_website", "title",
   "brand_tone", "industry", "brand_description", "target_audience",
   "signature", "writing_style"]

/-- The personality attributes `update_profile` assigns and `get_profile`
reads (`app/routes/profile_routes.py` lines 59-63, 78-82, 120-124, 143-147). -/
def profilePersonalityFields : List String :=
  ["use_emojis", "use_hashtags", "length_pref", "creativity_level", "cta_style"]

/-- A current instant: June 2025. -/
def exNow : PyDateTime := ⟨2025, 6, 15⟩

/-- An instant earlier in the same month. -/
def exSameMonth : PyDateTime := ⟨2025, 6, 1⟩

/-- An instant in the prior month. -/
def exPrevMonth : PyDateTime := ⟨2025, 5, 20⟩

/-- A later instant still inside June 2025. -/
def exLaterSameMonth : PyDateTime := ⟨2025, 6, 20⟩

/-- A free-plan account that has used exactly its limit this month. -/
def exUserAtLimit : UserState := ⟨"free", some 50, some 10, some exSameMonth⟩

/-- A free-plan account one generation under its limit this month. -/
def exUserUnder : UserState := ⟨"free", some 50, some 9, some exSameMonth⟩

/-- A free-plan account with a null stored count and a current-month reset. -/
def exUserNull : UserState := ⟨"free", some 50, none, some exSameMonth⟩

/-- A free-plan account at its limit with a prior-month reset timestamp. -/
def exUserStale : UserState := ⟨"free", some 50, some 10, some exPrevMonth⟩

/-- An ads request with every field missing. -/
def exAdReqEmpty : AdRequest := ⟨none, none, none, none, none, none⟩

/-- An ads request carrying a prompt. -/
def exAdReq : AdRequest := ⟨none, none, none, none, some "sell shoes", none⟩

/-- A content request with every field missing. -/
def exContentReqEmpty : ContentRequest := ⟨none, none, none, none, false⟩

/-- A content request carrying a topic. -/
def exContentReq : ContentRequest := ⟨some "spring sale", none, none, none, false⟩

/-- An email request with every field missing. -/
def exEmailReqEmpty : EmailRequest := ⟨none, none, none, none⟩

/-- An email request carrying details. -/
def exEmailReq : EmailRequest := ⟨none, some "follow up on the invoice", none, none⟩

/-- A model API that returns non-blank output. -/
def exAi : String → String → Option String := fun _ _ => some "OUT"

/-- A model API that returns whitespace-only output. -/
def exAiBlank : String → String → Option String := fun _ _ => some "  "

theorem reset_preserves_plan (now : PyDateTime) (u : UserState) :
    (reset_if_new_month now u).subscription_plan = u.subscription_plan := by
  unfold reset_if_new_month
  cases u.last_reset with
  | none => rfl
  | some d => by_cases h : d.month ≠ now.month ∨ d.year ≠ now.year <;> simp [h]

theorem get_user_limit_pos (p : String) :
    get_user_limit p = none ∨ ∃ n, get_user_limit p = some n ∧ 0 < n := by
  unfold get_user_limit
  split_ifs <;> first
    | (left; rfl)
    | (right; exact ⟨_, rfl, by norm_num⟩)

theorem quota_check_some (N c : Int) :
    quota_check (some N) (some c)
      = if N ≤ c then Except.error Err.quotaExceeded else Except.ok () := rfl

theorem quota_check_zero (limit : Option Int)
    (h : limit = none ∨ ∃ n, limit = some n ∧ 0 < n) :
    quota_check limit (some 0) = Except.ok () := by
  rcases h with h | ⟨n, h, hn⟩ <;> subst h
  · rfl
  · rw [quota_check_some, if_neg (by omega)]

theorem generate_ads_gate_error (now : PyDateTime) (prof : Option ProfileRec)
    (ai : String → String → Option String) (u : UserState) (data : AdRequest) (e : Err)
    (h : quota_check (get_user_limit (reset_if_new_month now u).subscription_plan)
        (reset_if_new_month now u).used_generations = Except.error e) :
    generate_ads now prof ai u data = ⟨u, [], Except.error e⟩ := by
  simp only [generate_ads, h]

theorem generate_content_gate_error (now : PyDateTime) (prof : Option ProfileRec)
    (ai : String → String → Option String) (u : UserState) (data : ContentRequest) (e : Err)
    (h : quota_check (get_user_limit (reset_if_new_month now u).subscription_plan)
        (reset_if_new_month now u).used_generations = Except.error e) :
    generate_content now prof ai u data = ⟨u, [], Except.error e⟩ := by
  simp only [generate_content, h]

theorem generate_email_gate_error (now : PyDateTime) (prof : Option ProfileRec)
    (ai : String → String → Option String) (u : UserState) (data : EmailRequest) (e : Err)
    (h : quota_check (get_user_limit (reset_if_new_month now u).subscription_plan)
        (reset_if_new_month now u).used_generations = Except.error e) :
    generate_email now prof ai u data = ⟨u, [], Except.error e⟩ := by
  simp only [generate_email, h]

theorem generate_ads_ne_quota (now : PyDateTime) (prof : Option ProfileRec)
    (ai : String → String → Option String) (u : UserState) (data : AdRequest)
    (h : quota_check (get_user_limit (reset_if_new_month now u).subscription_plan)
        (reset_if_new_month now u).used_generations = Except.ok ()) :
    (generate_ads now prof ai u data).response ≠ Except.error Err.quotaExceeded := by
  simp only [generate_ads, h]
  repeat' split
  all_goals simp

theorem generate_content_ne_quota (now : PyDateTime) (prof : Option ProfileRec)
    (ai : String → String → Option String) (u : UserState) (data : ContentRequest)
    (h : quota_check (get_user_limit (reset_if_new_month now u).subscription_plan)
        (reset_if_new_month now u).used_generations = Except.ok ()) :
    (generate_content now prof ai u data).response ≠ Except.error Err.quotaExceeded := by
  simp only [generate_content, h]
  repeat' split
  all_goals simp

theorem generate_email_ne_quota (now : PyDateTime) (prof : Option ProfileRec)
    (ai : String → String → Option String) (u : UserState) (data : EmailRequest)
    (h : quota_check (get_user_limit (reset_if_new_month now u).subscription_plan)
        (reset_if_new_month now u).used_generations = Except.ok ()) :
    (generate_email now prof ai u data).response ≠ Except.error Err.quotaExceeded := by
  simp only [generate_email, h]
  repeat' split
  all_goals simp

theorem reset_noop_same_month (now : PyDateTime) (u : UserState) (d : PyDateTime)
    (hlr : u.last_reset = some d) (hm : d.month = now.month) (hy : d.year = now.year) :
    reset_if_new_month now u = u := by
  unfold reset_if_new_month
  rw [hlr]
  simp [hm, hy]

theorem reset_stale_month (now : PyDateTime) (u : UserState) (d : PyDateTime)
    (hlr : u.last_reset = some d) (hdiff : d.month ≠ now.month ∨ d.year ≠ now.year) :
    reset_if_new_month now u
      = { u with used_generations := some 0, last_reset := some now } := by
  unfold reset_if_new_month
  rw [hlr]
  simp only [if_pos hdiff]

theorem pyOrS_strip_empty (t : String) (ht : pystrip t = "") :
    pystrip (pyOrS (some t) "") = "" := by
  by_cases h : t = ""
  · subst h; rfl
  · simpa [pyOrS, h] using ht

theorem generate_ads_validation (now : PyDateTime) (prof : Option ProfileRec)
    (ai : String → String → Option String) (u : UserState) (data : AdRequest)
    (h : quota_check (get_user_limit (reset_if_new_month now u).subscription_plan)
        (reset_if_new_month now u).used_generations = Except.ok ())
    (hval : adsPromptOf data = "" ∧
      (pystrip (pyOrS data.product "") = "" ∨ pystrip (pyOrS data.audience "") = "")) :
    generate_ads now prof ai u data = ⟨u, [], Except.error Err.validationFailed⟩ := by
  simp only [generate_ads, h]
  rw [if_pos hval]

theorem generate_content_validation (now : PyDateTime) (prof : Option ProfileRec)
    (ai : String → String → Option String) (u : UserState) (data : ContentRequest)
    (h : quota_check (get_user_limit (reset_if_new_month now u).subscription_plan)
        (reset_if_new_month now u).used_generations = Except.ok ())
    (hval : contentPromptOf data = "") :
    generate_content now prof ai u data = ⟨u, [], Except.error Err.validationFailed⟩ := by
  simp only [generate_content, h]
  rw [if_pos hval]

theorem generate_email_validation (now : PyDateTime) (prof : Option ProfileRec)
    (ai : String → String → Option String) (u : UserState) (data : EmailRequest)
    (h : quota_check (get_user_limit (reset_if_new_month now u).subscription_plan)
        (reset_if_new_month now u).used_generations = Except.ok ())
    (hval : emailDetailsOf data = "") :
    generate_email now prof ai u data = ⟨u, [], Except.error Err.validationFailed⟩ := by
  simp only [generate_email, h]
  rw [if_pos hval]

theorem generate_ads_blank_output (now : PyDateTime) (prof : Option ProfileRec)
    (ai : String → String → Option String) (u : UserState) (data : AdRequest) (t : String)
    (h : quota_check (get_user_limit (reset_if_new_month now u).subscription_plan)
        (reset_if_new_month now u).used_generations = Except.ok ())
    (hai : ∀ s m, ai s m = some t) (ht : pystrip t = "")
    (hval : ¬(adsPromptOf data = "" ∧
      (pystrip (pyOrS data.product "") = "" ∨ pystrip (pyOrS data.audience "") = ""))) :
    generate_ads now prof ai u data = ⟨u, [], Except.error Err.generationFailed⟩ := by
  simp only [generate_ads, h]
  rw [if_neg hval, hai, pyOrS_strip_empty t ht]
  simp

theorem generate_content_blank_output (now : PyDateTime) (prof : Option ProfileRec)
    (ai : String → String → Option String) (u : UserState) (data : ContentRequest) (t : String)
    (h : quota_check (get_user_limit (reset_if_new_month now u).subscription_plan)
        (reset_if_new_month now u).used_generations = Except.ok ())
    (hai : ∀ s m, ai s m = some t) (ht : pystrip t = "")
    (hval : ¬(contentPromptOf data = "")) :
    generate_content now prof ai u data = ⟨u, [], Except.error Err.generationFailed⟩ := by
  simp only [generate_content, h]
  rw [if_neg hval, hai]
  simp [ht]

theorem generate_email_blank_output (now : PyDateTime) (prof : Option ProfileRec)
    (ai : String → String → Option String) (u : UserState) (data : EmailRequest) (t : String)
    (h : quota_check (get_user_limit (reset_if_new_month now u).subscription_plan)
        (reset_if_new_month now u).used_generations = Except.ok ())
    (hai : ∀ s m, ai s m = some t) (ht : pystrip t = "")
    (hval : ¬(emailDetailsOf data = "")) :
    generate_email now prof ai u data = ⟨u, [], Except.error Err.generationFailed⟩ := by
  simp only [generate_email, h]
  rw [if_neg hval, hai, pyOrS_strip_empty t ht]
  simp

/-- C1: for an authenticated account whose plan resolves to a finite monthly
limit N, each generation handler (ads, content, email) rejects with the
quota-exceeded condition exactly when the count after the monthly reset-check
is at least N; on rejection the model API is never invoked (the result is the
same for every `ai`) and the stored account, in particular
`used_generations`, is unchanged; with count N-1 the request is not
quota-rejected. -/
theorem quota_limit_enforcement (now : PyDateTime) (u : UserState) (N c : Int)
    (hL : get_user_limit u.subscription_plan = some N)
    (hC : (reset_if_new_month now u).used_generations = some c) :
    (∀ prof ai data,
      ((generate_ads now prof ai u data).response = Except.error Err.quotaExceeded ↔ N ≤ c))
  ∧ (∀ prof ai data,
      ((generate_content now prof ai u data).response = Except.error Err.quotaExceeded ↔ N ≤ c))
  ∧ (∀ prof ai data,
      ((generate_email now prof ai u data).response = Except.error Err.quotaExceeded ↔ N ≤ c))
  ∧ (N ≤ c →
      (∀ prof ai data, generate_ads now prof ai u data = ⟨u, [], Except.error Err.quotaExceeded⟩)
    ∧ (∀ prof ai data, generate_content now prof ai u data = ⟨u, [], Except.error Err.quotaExceeded⟩)
    ∧ (∀ prof ai data, generate_email now prof ai u data = ⟨u, [], Except.error Err.quotaExceeded⟩))
  ∧ (c = N - 1 →
      (∀ prof ai data, (generate_ads now prof ai u data).response ≠ Except.error Err.quotaExceeded)
    ∧ (∀ prof ai data, (generate_content now prof ai u data).response ≠ Except.error Err.quotaExceeded)
    ∧ (∀ prof ai data, (generate_email now prof ai u data).response ≠ Except.error Err.quotaExceeded)) := by
  have hplan := reset_preserves_plan now u
  by_cases hNc : N ≤ c
  · have hgate : quota_check (get_user_limit (reset_if_new_month now u).subscription_plan)
        (reset_if_new_month now u).used_generations = Except.error Err.quotaExceeded := by
      rw [hplan, hL, hC, quota_check_some, if_pos hNc]
    refine ⟨?_, ?_, ?_, ?_, ?_⟩
    · intro prof ai data
      rw [generate_ads_gate_error now prof ai u data _ hgate]
      simpa using hNc
    · intro prof ai data
      rw [generate_content_gate_error now prof ai u data _ hgate]
      simpa using hNc
    · intro prof ai data
      rw [generate_email_gate_error now prof ai u data _ hgate]
      simpa using hNc
    · intro _
      exact ⟨fun prof ai data => generate_ads_gate_error now prof ai u data _ hgate,
        fun prof ai data => generate_content_gate_error now prof ai u data _ hgate,
        fun prof ai data => generate_email_gate_error now prof ai u data _ hgate⟩
    · intro hc
      exact absurd hNc (by omega)
  · have hgate : quota_check (get_user_limit (reset_if_new_month now u).subscription_plan)
        (reset_if_new_month now u).used_generations = Except.ok () := by
      rw [hplan, hL, hC, quota_check_some, if_neg hNc]
    refine ⟨?_, ?_, ?_, ?_, ?_⟩
    · intro prof ai data
      exact ⟨fun hresp => absurd hresp (generate_ads_ne_quota now prof ai u data hgate),
        fun hh => absurd hh hNc⟩
    · intro prof ai data
      exact ⟨fun hresp => absurd hresp (generate_content_ne_quota now prof ai u data hgate),
        fun hh => absurd hh hNc⟩
    · intro prof ai data
      exact ⟨fun hresp => absurd hresp (generate_email_ne_quota now prof ai u data hgate),
        fun hh => absurd hh hNc⟩
    · intro hh
      exact absurd hh hNc
    · intro _
      exact ⟨fun prof ai data => generate_ads_ne_quota now prof ai u data hgate,
        fun prof ai data => generate_content_ne_quota now prof ai u data hgate,
        fun prof ai data => generate_email_ne_quota now prof ai u data hgate⟩

/-- C1 witness: a free-plan account (limit 10) at count 10 in the current
month is quota-rejected with the full result unchanged. -/
theorem quota_limit_enforcement_witness :
    ((generate_ads exNow none exAi exUserAtLimit exAdReq).response
        = Except.error Err.quotaExceeded ↔ (10 : Int) ≤ 10)
  ∧ generate_ads exNow none exAi exUserAtLimit exAdReq
      = ⟨exUserAtLimit, [], Except.error Err.quotaExceeded⟩ := by
  have h := quota_limit_enforcement exNow exUserAtLimit 10 10 (by decide) (by decide)
  exact ⟨h.1 none exAi exAdReq, (h.2.2.2.1 (by norm_num)).1 none exAi exAdReq⟩

/-- C2: an account whose `last_reset` lies in a different calendar (year,
month) than the current time has its count zeroed and its timestamp advanced
by one `reset_if_new_month` call, and because every handler runs the reset
before the limit comparison, such an account is never quota-rejected on its
stale prior-month count. -/
theorem stale_month_reset_unblocks (now : PyDateTime) (u : UserState) (d : PyDateTime)
    (hlr : u.last_reset = some d) (hdiff : d.month ≠ now.month ∨ d.year ≠ now.year) :
    (reset_if_new_month now u).used_generations = some 0
  ∧ (reset_if_new_month now u).last_reset = some now
  ∧ (∀ prof ai data, (generate_ads now prof ai u data).response ≠ Except.error Err.quotaExceeded)
  ∧ (∀ prof ai data, (generate_content now prof ai u data).response ≠ Except.error Err.quotaExceeded)
  ∧ (∀ prof ai data, (generate_email now prof ai u data).response ≠ Except.error Err.quotaExceeded) := by
  have hreset := reset_stale_month now u d hlr hdiff
  have hused : (reset_if_new_month now u).used_generations = some 0 := by rw [hreset]
  have hgate : quota_check (get_user_limit (reset_if_new_month now u).subscription_plan)
      (reset_if_new_month now u).used_generations = Except.ok () := by
    rw [hused]
    exact quota_check_zero _ (get_user_limit_pos _)
  exact ⟨hused, by rw [hreset],
    fun prof ai data => generate_ads_ne_quota now prof ai u data hgate,
    fun prof ai data => generate_content_ne_quota now prof ai u data hgate,
    fun prof ai data => generate_email_ne_quota now prof ai u data hgate⟩

/-- C2 witness: a free-plan account at count 10 whose timestamp is from May
is reset and not quota-rejected in June. -/
theorem stale_month_reset_unblocks_witness :
    (reset_if_new_month exNow exUserStale).used_generations = some 0
  ∧ (generate_ads exNow none exAi exUserStale exAdReq).response
      ≠ Except.error Err.quotaExceeded := by
  have h := stale_month_reset_unblocks exNow exUserStale exPrevMonth (by decide) (by decide)
  exact ⟨h.1, h.2.2.1 none exAi exAdReq⟩

/-- C7: running `reset_if_new_month` twice within the same calendar month is
idempotent: the second call changes neither the count nor the timestamp. -/
theorem reset_idempotent_same_month (u : UserState) (now1 now2 : PyDateTime)
    (hm : now1.month = now2.month) (hy : now1.year = now2.year) :
    reset_if_new_month now2 (reset_if_new_month now1 u) = reset_if_new_month now1 u := by
  cases hlr : u.last_reset with
  | none =>
    have h1 : reset_if_new_month now1 u
        = { u with last_reset := some now1, used_generations := some 0 } := by
      unfold reset_if_new_month
      rw [hlr]
    rw [h1]
    exact reset_noop_same_month now2 _ now1 rfl hm hy
  | some d =>
    by_cases hd : d.month ≠ now1.month ∨ d.year ≠ now1.year
    · rw [reset_stale_month now1 u d hlr hd]
      exact reset_noop_same_month now2 _ now1 rfl hm hy
    · push_neg at hd
      rw [reset_noop_same_month now1 u d hlr hd.1 hd.2]
      exact reset_noop_same_month now2 u d hlr (hd.1.trans hm) (hd.2.trans hy)

/-- C7 witness: two reset calls in June 2025 on a stale account agree with
one. -/
theorem reset_idempotent_same_month_witness :
    reset_if_new_month exLaterSameMonth (reset_if_new_month exNow exUserStale)
      = reset_if_new_month exNow exUserStale :=
  reset_idempotent_same_month exUserStale exNow exLaterSameMonth (by decide) (by decide)

/-- C8: the Stripe checkout webhook sets the plan and zeroes the count; a
subsequent `reset_if_new_month` in the same calendar month leaves the whole
upgraded state, in particular the zero count, unchanged. -/
theorem upgrade_reset_no_double (u : UserState) (plan : String) (now d : PyDateTime)
    (hlr : u.last_reset = some d) (hm : d.month = now.month) (hy : d.year = now.year) :
    (stripe_checkout_completed plan u).used_generations = some 0
  ∧ reset_if_new_month now (stripe_checkout_completed plan u)
      = stripe_checkout_completed plan u := by
  have hlast : (stripe_checkout_completed plan u).last_reset = some d := by
    simp only [stripe_checkout_completed]
    split_ifs <;> simpa using hlr
  exact ⟨rfl, reset_noop_same_month now _ d hlast hm hy⟩

/-- C8 witness: a mid-month upgrade to pro followed by a same-month reset
call keeps the count at 0 and the state intact. -/
theorem upgrade_reset_no_double_witness :
    (stripe_checkout_completed "pro" exUserAtLimit).used_generations = some 0
  ∧ reset_if_new_month exNow (stripe_checkout_completed "pro" exUserAtLimit)
      = stripe_checkout_completed "pro" exUserAtLimit :=
  upgrade_reset_no_double exUserAtLimit "pro" exNow exSameMonth (by decide) (by decide) (by decide)

/-- C10: with a current-month timestamp, a null stored count and a finite
limit, the limit comparison receives the raw null count and errors (the
Python `None >= int` TypeError) instead of treating the count as 0; every
handler surfaces that error without invoking the model API or changing the
stored account; only the post-success increment normalizes a null count to 0. -/
theorem null_count_check_errors (now : PyDateTime) (u : UserState) (d : PyDateTime) (N : Int)
    (hC : u.used_generations = none) (hlr : u.last_reset = some d)
    (hm : d.month = now.month) (hy : d.year = now.year)
    (hL : get_user_limit u.subscription_plan = some N) :
    quota_check (some N) none = Except.error Err.typeError
  ∧ (∀ prof ai data, generate_ads now prof ai u data = ⟨u, [], Except.error Err.typeError⟩)
  ∧ (∀ prof ai data, generate_content now prof ai u data = ⟨u, [], Except.error Err.typeError⟩)
  ∧ (∀ prof ai data, generate_email now prof ai u data = ⟨u, [], Except.error Err.typeError⟩)
  ∧ pyOrI none 0 + 1 = pyOrI (some 0) 0 + 1 := by
  have hreset := reset_noop_same_month now u d hlr hm hy
  have hgate : quota_check (get_user_limit (reset_if_new_month now u).subscription_plan)
      (reset_if_new_month now u).used_generations = Except.error Err.typeError := by
    rw [hreset, hL, hC]
    rfl
  exact ⟨rfl,
    fun prof ai data => generate_ads_gate_error now prof ai u data _ hgate,
    fun prof ai data => generate_content_gate_error now prof ai u data _ hgate,
    fun prof ai data => generate_email_gate_error now prof ai u data _ hgate, rfl⟩

/-- C10 witness: a free-plan account with a null count in the current month
gets the type-error outcome from the ads handler, unchanged state. -/
theorem null_count_check_errors_witness :
    quota_check (some 10) none = Except.error Err.typeError
  ∧ generate_ads exNow none exAi exUserNull exAdReq
      = ⟨exUserNull, [], Except.error Err.typeError⟩ := by
  have h := null_count_check_errors exNow exUserNull exSameMonth 10 (by decide) (by decide)
    (by decide) (by decide) (by decide)
  exact ⟨h.1, h.2.1 none exAi exAdReq⟩

/-- C3 counterexample: the three no-profile defaulting paths are not
equivalent — the email path yields no personalization directives at all
(empty string) while the content path yields a non-empty fixed block, and
the ads dummy resolves a balanced CTA directive. -/
theorem default_directives_counterexample :
    build_email_personality none = ""
  ∧ build_behavior_rules none ≠ ""
  ∧ build_behavior_rules none ≠ build_email_personality none
  ∧ ads_cta_rule adsDummyProfile = "Use confident but friendly CTA." := by
  exact ⟨rfl, by decide, by decide, rfl⟩

/-- C3 corrected: each handler defaults safely when no profile exists, but
the default directive sets differ per kind: the ads dummy resolves emojis
allowed, hashtags allowed, medium length, balanced CTA and creativity 5; the
content path returns a fixed block whose CTA directive is a soft marketing
CTA; the email path returns no personalization directives at all. -/
theorem default_directives_per_kind :
    ads_emoji_rule adsDummyProfile = "Emojis allowed when natural."
  ∧ ads_hashtag_rule adsDummyProfile = "Use relevant hashtags when logical."
  ∧ ads_length_rule adsDummyProfile = "Balanced ad length."
  ∧ ads_cta_rule adsDummyProfile = "Use confident but friendly CTA."
  ∧ ads_creativity_rule adsDummyProfile = "Creativity level: 5/10"
  ∧ build_behavior_rules none
      = "AI Behavior Rules:\n- Use a balanced tone\n- Normal creativity\n- Emojis allowed\n- Hashtags allowed\n- Medium length content\n- Soft marketing CTA\n"
  ∧ build_email_personality none = "" := by
  exact ⟨rfl, rfl, by decide, by decide, by decide, by decide, rfl⟩

/-- C4 counterexample: an over-quota free-plan account submitting requests
with every required input missing receives the quota-exceeded condition, not
validation-failed — the quota check runs first. -/
theorem validation_after_quota_counterexample :
    adsPromptOf exAdReqEmpty = ""
  ∧ pystrip (pyOrS exAdReqEmpty.product "") = ""
  ∧ contentPromptOf exContentReqEmpty = ""
  ∧ emailDetailsOf exEmailReqEmpty = ""
  ∧ (generate_ads exNow none exAi exUserAtLimit exAdReqEmpty).response
      = Except.error Err.quotaExceeded
  ∧ (generate_ads exNow none exAi exUserAtLimit exAdReqEmpty).response
      ≠ Except.error Err.validationFailed
  ∧ (generate_content exNow none exAi exUserAtLimit exContentReqEmpty).response
      = Except.error Err.quotaExceeded
  ∧ (generate_email exNow none exAi exUserAtLimit exEmailReqEmpty).response
      = Except.error Err.quotaExceeded := by
  decide

/-- C4 corrected: missing required inputs are rejected with
validation-failed before the model API is invoked and without touching
stored state, but only after the quota gate: when the quota gate passes the
handlers return validation-failed on missing inputs, while an over-quota
account with missing inputs receives quota-exceeded. -/
theorem validation_behind_quota_gate (now : PyDateTime) (u : UserState) :
    (quota_check (get_user_limit (reset_if_new_month now u).subscription_plan)
        (reset_if_new_month now u).used_generations = Except.ok () →
      (∀ prof ai data, adsPromptOf data = "" →
        (pystrip (pyOrS data.product "") = "" ∨ pystrip (pyOrS data.audience "") = "") →
        generate_ads now prof ai u data = ⟨u, [], Except.error Err.validationFailed⟩)
    ∧ (∀ prof ai data, contentPromptOf data = "" →
        generate_content now prof ai u data = ⟨u, [], Except.error Err.validationFailed⟩)
    ∧ (∀ prof ai data, emailDetailsOf data = "" →
        generate_email now prof ai u data = ⟨u, [], Except.error Err.validationFailed⟩))
  ∧ (∀ N c, get_user_limit u.subscription_plan = some N →
      (reset_if_new_month now u).used_generations = some c → N ≤ c →
      ∀ prof ai data,
        (generate_ads now prof ai u data).response = Except.error Err.quotaExceeded) := by
  constructor
  · intro hgate
    exact ⟨fun prof ai data h1 h2 => generate_ads_validation now prof ai u data hgate ⟨h1, h2⟩,
      fun prof ai data h1 => generate_content_validation now prof ai u data hgate h1,
      fun prof ai data h1 => generate_email_validation now prof ai u data hgate h1⟩
  · intro N c hL hC hNc prof ai data
    have hgate : quota_check (get_user_limit (reset_if_new_month now u).subscription_plan)
        (reset_if_new_month now u).used_generations = Except.error Err.quotaExceeded := by
      rw [reset_preserves_plan now u, hL, hC, quota_check_some, if_pos hNc]
    rw [generate_ads_gate_error now prof ai u data _ hgate]

/-- C4 witness: an under-quota account with missing inputs gets
validation-failed; an at-limit account with the same inputs gets
quota-exceeded. -/
theorem validation_behind_quota_gate_witness :
    generate_ads exNow none exAi exUserUnder exAdReqEmpty
      = ⟨exUserUnder, [], Except.error Err.validationFailed⟩
  ∧ (generate_ads exNow none exAi exUserAtLimit exAdReqEmpty).response
      = Except.error Err.quotaExceeded := by
  refine ⟨((validation_behind_quota_gate exNow exUserUnder).1 (by decide)).1
    none exAi exAdReqEmpty (by decide) (Or.inl (by decide)), ?_⟩
  exact (validation_behind_quota_gate exNow exUserAtLimit).2 10 10 (by decide) (by decide)
    (by norm_num) none exAi exAdReqEmpty

/-- C5: when the model API returns empty or whitespace-only text, each
handler surfaces the generation-failed condition, persists no SavedContent
row and leaves the stored account (hence `used_generations`) unchanged. -/
theorem empty_output_not_persisted (now : PyDateTime) (u : UserState)
    (hgate : quota_check (get_user_limit (reset_if_new_month now u).subscription_plan)
        (reset_if_new_month now u).used_generations = Except.ok ()) :
    (∀ prof (ai : String → String → Option String) (t : String) data,
        (∀ s m, ai s m = some t) → pystrip t = "" →
        ¬(adsPromptOf data = "" ∧
          (pystrip (pyOrS data.product "") = "" ∨ pystrip (pyOrS data.audience "") = "")) →
        generate_ads now prof ai u data = ⟨u, [], Except.error Err.generationFailed⟩)
  ∧ (∀ prof (ai : String → String → Option String) (t : String) data,
        (∀ s m, ai s m = some t) → pystrip t = "" → contentPromptOf data ≠ "" →
        generate_content now prof ai u data = ⟨u, [], Except.error Err.generationFailed⟩)
  ∧ (∀ prof (ai : String → String → Option String) (t : String) data,
        (∀ s m, ai s m = some t) → pystrip t = "" → emailDetailsOf data ≠ "" →
        generate_email now prof ai u data = ⟨u, [], Except.error Err.generationFailed⟩) :=
  ⟨fun prof ai t data hai ht hval =>
      generate_ads_blank_output now prof ai u data t hgate hai ht hval,
   fun prof ai t data hai ht hval =>
      generate_content_blank_output now prof ai u data t hgate hai ht hval,
   fun prof ai t data hai ht hval =>
      generate_email_blank_output now prof ai u data t hgate hai ht hval⟩

/-- C5 witness: a whitespace-only model response on a valid under-quota ads
request yields generation-failed with no persisted row and unchanged state. -/
theorem empty_output_not_persisted_witness :
    generate_ads exNow none exAiBlank exUserUnder exAdReq
      = ⟨exUserUnder, [], Except.error Err.generationFailed⟩ :=
  (empty_output_not_persisted exNow exUserUnder (by decide)).1
    none exAiBlank "  " exAdReq (fun _ _ => rfl) (by decide) (by decide)

/-- C6 counterexample: the limit lookup is not case-insensitive — "Pro"
falls through to the default free limit 10 while "pro" is unlimited. -/
theorem plan_limit_case_counterexample :
    get_user_limit "Pro" = some 10
  ∧ get_user_limit "pro" = none
  ∧ get_user_limit "Pro" ≠ get_user_limit "pro" := by
  decide

/-- C6 corrected: `get_user_limit` matches the plan name case-sensitively;
exact keys map free to 10, basic to 100, growth and pro to unlimited, and
every other string — including the empty string and any non-lowercase
spelling — defaults to the free limit 10, which is why "FREE", "Free" and
"free" happen to agree while "Pro" and "pro" do not. -/
theorem plan_limit_lookup (s : String)
    (h1 : s ≠ "free") (h2 : s ≠ "basic") (h3 : s ≠ "growth") (h4 : s ≠ "pro") :
    get_user_limit s = some 10
  ∧ get_user_limit "free" = some 10
  ∧ get_user_limit "basic" = some 100
  ∧ get_user_limit "growth" = none
  ∧ get_user_limit "pro" = none
  ∧ get_user_limit "FREE" = get_user_limit "free"
  ∧ get_user_limit "Free" = get_user_limit "free"
  ∧ get_user_limit "" = some 10 := by
  refine ⟨?_, by decide, by decide, by decide, by decide, by decide, by decide, by decide⟩
  simp [get_user_limit, h1, h2, h3, h4]

/-- C6 witness: the unknown spelling "FREE" resolves to the default 10. -/
theorem plan_limit_lookup_witness : get_user_limit "FREE" = some 10 :=
  (plan_limit_lookup "FREE" (by decide) (by decide) (by decide) (by decide)).1

/-- C9: the `Profile` ORM model declares none of the five personality
attributes that `update_profile` assigns and `get_profile` reads, while the
free-text fields are declared columns — the personality settings accepted by
the profile update operation are not persisted columns of the model. -/
theorem profile_personality_columns_missing :
    profilePersonalityFields
      = ["use_emojis", "use_hashtags", "length_pref", "creativity_level", "cta_style"]
  ∧ profilePersonalityFields.filter profileColumns.contains = []
  ∧ profileColumns.contains "brand_tone" = true
  ∧ profileColumns.contains "writing_style" = true
  ∧ profileColumns.contains "signature" = true := by
  decide
